import Mathlib

/-!
Verification of the `useTiming` plugin (`src/packages/core/src/plugins/use-timing.ts`)
against its natural-language specification.

The development shallowly embeds the plugin's pure logic:

* a small model of JavaScript runtime values (`JSValue`) sufficient for the
  duck-typed thenable test `isThenable`;
* the resolver-wrapping machinery `resolveField` / `wrapResolver`, modelled as
  functions from the observable behaviour of one resolver invocation to the
  observable behaviour of the wrapped invocation (return value or thrown error,
  settlement of any promise handed to the caller, hook invocations, and the
  number of times the underlying resolver is invoked);
* the measurement arithmetic `deltaFrom`;
* the option-merging and hook-registration logic of `useTiming`, together with a
  per-request run model that counts, per measurement category, the clock reads
  and the measurements delivered to the configured sinks.
-/

namespace Envelop

/-! ## A model of JavaScript values

Only what the duck-typed thenable check needs: the primitive kinds, and objects
and functions carrying a property list.  Property access never recurses, so a
plain nested inductive suffices. -/

/-- A JavaScript runtime value.  `object` and `func` carry their own enumerable
properties as an association list. -/
inductive JSValue where
  | null
  | undefined
  | boolean (b : Bool)
  | number (n : Int)
  | str (s : String)
  | object (props : List (String × JSValue))
  | func (props : List (String × JSValue))

/-- `typeof v` of the JavaScript source, as a string (`typeof null` is
`"object"`). -/
def typeOf : JSValue → String
  | .null => "object"
  | .undefined => "undefined"
  | .boolean _ => "boolean"
  | .number _ => "number"
  | .str _ => "string"
  | .object _ => "object"
  | .func _ => "function"

/-- JavaScript truthiness (`!!v`).  `NaN` is not modelled; a number is truthy
iff it is nonzero, a string iff it is nonempty. -/
def truthy : JSValue → Bool
  | .null => false
  | .undefined => false
  | .boolean b => b
  | .number n => n != 0
  | .str s => s != ""
  | .object _ => true
  | .func _ => true

/-- The JavaScript `in` operator (`"k" in v`): property-existence test, which
throws a `TypeError` on any non-object operand (including `null`,
`undefined`, numbers and strings). -/
def hasProp (v : JSValue) (k : String) : Except String Bool :=
  match v with
  | .object props => .ok (props.lookup k).isSome
  | .func props => .ok (props.lookup k).isSome
  | _ => .error "TypeError: cannot use in operator"

/-- JavaScript property access `v.k`: throws on `null`/`undefined`, boxes other
primitives (no `then` member on the primitive prototypes in this model), and
looks the key up on objects and functions. -/
def getProp (v : JSValue) (k : String) : Except String JSValue :=
  match v with
  | .null => .error "TypeError: cannot read properties of null"
  | .undefined => .error "TypeError: cannot read properties of undefined"
  | .object props => .ok ((props.lookup k).getD .undefined)
  | .func props => .ok ((props.lookup k).getD .undefined)
  | _ => .ok .undefined

/-- Source `isThenable`, with JavaScript's left-to-right short-circuit
evaluation made explicit:

`((!!result && typeof result === 'object') || typeof result === 'function') &&
 'then' in result && typeof result.then === 'function'`

The `Except` codomain records where the raw member operations could throw; the
guard in front is what keeps them from ever doing so. -/
def isThenable (result : JSValue) : Except String Bool :=
  if (truthy result && (typeOf result == "object")) || (typeOf result == "function") then
    match hasProp result "then" with
    | .error e => .error e
    | .ok false => .ok false
    | .ok true =>
      match getProp result "then" with
      | .error e => .error e
      | .ok t => .ok (typeOf t == "function")
  else
    .ok false

/-- Written from the spec's words: a value is deferred iff it is an object or
callable whose `then` member is callable — the sole test, no other
heuristic. -/
def isThenableSpec : JSValue → Bool
  | .object props =>
    match props.lookup "then" with
    | some (.func _) => true
    | _ => false
  | .func props =>
    match props.lookup "then" with
    | some (.func _) => true
    | _ => false
  | _ => false

example : isThenable .null = .ok false := rfl
example : isThenable (.number 7) = .ok false := rfl
example : isThenable (.object [("then", .func [])]) = .ok true := rfl
example : isThenable (.object [("then", .number 1)]) = .ok false := rfl
example : isThenable (.func []) = .ok false := rfl

/-- C7: `isThenable` is total and never throws: on every input it returns
(rather than raises) a boolean, and that boolean is `true` exactly when the
input is an object or function whose `then` member is a function — the spec's
sole criterion. -/
theorem C7_isThenable_total_spec (v : JSValue) :
    isThenable v = Except.ok (isThenableSpec v) := by
  cases v with
  | null => rfl
  | undefined => rfl
  | boolean b => cases b <;> rfl
  | number n => simp [isThenable, truthy, typeOf, isThenableSpec]
  | str s => simp [isThenable, truthy, typeOf, isThenableSpec]
  | object props =>
    simp only [isThenable, truthy, typeOf, isThenableSpec, hasProp, getProp]
    cases h : props.lookup "then" with
    | none => simp [h]
    | some w => cases w <;> simp [h, typeOf]
  | func props =>
    simp only [isThenable, truthy, typeOf, isThenableSpec, hasProp, getProp]
    cases h : props.lookup "then" with
    | none => simp [h]
    | some w => cases w <;> simp [h, typeOf]

/-! ## The measurement arithmetic -/

/-- Source constant `HR_TO_NS = 1e9`. -/
def HR_TO_NS : ℚ := 1000000000

/-- Source constant `NS_TO_MS = 1e6`. -/
def NS_TO_MS : ℚ := 1000000

/-- Source type `ResultTiming = { ms: number; ns: number }`. -/
structure ResultTiming where
  ns : ℚ
  ms : ℚ
  deriving Repr, DecidableEq

/-- Source `deltaFrom`.  The call `process.hrtime(hrtime)` is the external
clock primitive; its result — the elapsed `[seconds, nanoseconds]` pair — is
the argument here.  `ns = delta[0] * HR_TO_NS + delta[1]` and the `ms` getter
returns `ns / NS_TO_MS`. -/
def deltaFrom (delta : ℤ × ℤ) : ResultTiming :=
  let ns : ℚ := (delta.1 : ℚ) * HR_TO_NS + (delta.2 : ℚ)
  { ns := ns, ms := ns / NS_TO_MS }

/-- C8: given non-negative hrtime delta components, the produced measurement
has non-negative nanoseconds, and its milliseconds field is exactly the
unrounded quotient nanoseconds / 1,000,000 (equivalently, ms · 1,000,000
recovers ns with no rounding loss). -/
theorem C8_measurement_nonneg_exact (delta : ℤ × ℤ)
    (h1 : 0 ≤ delta.1) (h2 : 0 ≤ delta.2) :
    0 ≤ (deltaFrom delta).ns ∧
      (deltaFrom delta).ms = (deltaFrom delta).ns / 1000000 ∧
      (deltaFrom delta).ms * 1000000 = (deltaFrom delta).ns := by
  have hq1 : (0 : ℚ) ≤ (delta.1 : ℚ) := by exact_mod_cast h1
  have hq2 : (0 : ℚ) ≤ (delta.2 : ℚ) := by exact_mod_cast h2
  refine ⟨?_, ?_, ?_⟩
  · have : (0 : ℚ) ≤ (delta.1 : ℚ) * HR_TO_NS := by
      apply mul_nonneg hq1
      norm_num [HR_TO_NS]
    simpa [deltaFrom] using add_nonneg this hq2
  · simp [deltaFrom, NS_TO_MS]
  · have h6 : (NS_TO_MS : ℚ) ≠ 0 := by norm_num [NS_TO_MS]
    simp only [deltaFrom, NS_TO_MS] at *
    field_simp

/-- Witness for C8 at the spec's end-to-end scenario: a fixed 5,000,000 ns
elapsed yields `{ns := 5000000, ms := 5}`. -/
theorem C8_witness :
    (deltaFrom (0, 5000000)).ns = 5000000 ∧ (deltaFrom (0, 5000000)).ms = 5 ∧
      (0 ≤ (deltaFrom (0, 5000000)).ns ∧
        (deltaFrom (0, 5000000)).ms = (deltaFrom (0, 5000000)).ns / 1000000 ∧
        (deltaFrom (0, 5000000)).ms * 1000000 = (deltaFrom (0, 5000000)).ns) :=
  ⟨by norm_num [deltaFrom, HR_TO_NS, NS_TO_MS],
   by norm_num [deltaFrom, HR_TO_NS, NS_TO_MS],
   C8_measurement_nonneg_exact (0, 5000000) (by norm_num) (by norm_num)⟩

/-! ## The resolver wrapper

`resolveField` and the `resolve` closure built by `wrapResolver` are embedded
as functions on the observable behaviour of one resolver invocation.  A
resolver invocation either returns a plain (non-thenable) value, returns a
thenable that later settles, or throws; the embedding records what the wrapped
call hands its caller, the settlement of the promise `resolveField` builds with
`result.then(...)` (which the source never returns), every payload the
after-hook receives, and how many times the underlying resolver function is
invoked. -/

/-- The settled outcome of a resolver or promise: a value, or a thrown /
rejected error. -/
inductive Outcome where
  | value (v : JSValue)
  | thrown (e : JSValue)

/-- The observable behaviour of invoking a resolver function once:
`ret v` — returns the non-thenable value `v`; `retThenable o` — returns a
thenable (a value on which `isThenable` holds) that settles with outcome `o`;
`throws e` — throws `e` synchronously. -/
inductive InvokeResult where
  | ret (v : JSValue)
  | retThenable (settled : Outcome)
  | throws (e : JSValue)

/-- An after-hook.  It receives the outcome placed in `payload.result`; the
model records whether it called `payload.setResult` and with what value
(`some v` — substituted `v`; `none` — left the result alone). -/
def AfterHook : Type := Outcome → Option JSValue

/-- Invoking the resolver function: the behaviour, plus one tick of the
invocation counter.  Each syntactic call site `resolve(root, args, context,
info)` of the source maps to exactly one application of `invoke`. -/
def invoke (r : InvokeResult) : InvokeResult × Nat := (r, 1)

/-- What one call of `resolveField` produces. `returned` is what the call
itself returns (or throws) to its caller; `derived` is the settlement of the
promise built by `result.then(...)` when the resolver returned a thenable
(the source drops that promise instead of returning it); `hookCalls` lists the
`payload.result` values passed to the after-hook, in order. -/
structure FieldCallResult where
  returned : Outcome
  derived : Option Outcome
  hookCalls : List Outcome

/-- Source `resolveField(resolve, hook)`, line by line:

* `try { result = resolve() }` — one invocation;
* `catch (error) { hook({result: error, setResult}); throw error }` — the hook
  runs, any `setResult` write lands in the local `result` which is then
  discarded, and the original `error` is re-thrown;
* non-thenable `result`: the `if (isThenable(result))` guard fails and the
  function falls off the end — the hook is never invoked and the call returns
  `undefined`;
* thenable `result`: `result.then(resolved => {result = resolved; hook(...);
  return result}, error => {hook(...); throw error})` builds a derived promise
  (whose resolution sees a `setResult` substitution, and whose rejection
  re-throws the original error) — and the function still falls off the end,
  returning `undefined`. -/
def resolveField (resolve : InvokeResult) (hook : AfterHook) :
    FieldCallResult × Nat :=
  let (r, c) := invoke resolve
  match r with
  | .throws e =>
    ({ returned := .thrown e, derived := none, hookCalls := [.thrown e] }, c)
  | .ret _ =>
    ({ returned := .value .undefined, derived := none, hookCalls := [] }, c)
  | .retThenable (.value v) =>
    let subst := hook (.value v)
    ({ returned := .value .undefined, derived := some (.value (subst.getD v)),
       hookCalls := [.value v] }, c)
  | .retThenable (.thrown e) =>
    ({ returned := .value .undefined, derived := some (.thrown e),
       hookCalls := [.thrown e] }, c)

/-- What `onResolverCalled` did when the wrapped resolver called it:
`noHook` — returned a falsy value; `sync h` — returned the after-hook `h`
directly; `asyncNone` — returned a thenable that settles with a falsy value;
`asyncHook h` — returned a thenable that settles with the after-hook `h`. -/
inductive AfterKind where
  | noHook
  | sync (h : AfterHook)
  | asyncNone
  | asyncHook (h : AfterHook)

/-- The effect of the `onResolverCalled` call made by the wrapped resolver:
whether `replaceResolverFn` was called (and with what replacement behaviour),
and what the call returned. -/
structure HookSetup where
  replace : Option InvokeResult
  after : AfterKind

/-- What the caller of the wrapped resolver observes: a synchronous return
value, a synchronous throw, or a returned promise together with its
settlement. -/
inductive WrappedView where
  | syncValue (v : JSValue)
  | syncThrow (e : JSValue)
  | promise (settled : Outcome)

/-- `return resolve(...)` — handing the caller the resolver's own behaviour
unchanged. -/
def directView : InvokeResult → WrappedView
  | .ret v => .syncValue v
  | .retThenable o => .promise o
  | .throws e => .syncThrow e

/-- `return resolve(...)` from inside an `after.then(...)` continuation: the
caller holds the promise built by `.then`, which resolves with a plain return
value, adopts a returned thenable, and rejects with a thrown error. -/
def promiseView : InvokeResult → WrappedView
  | .ret v => .promise (.value v)
  | .retThenable o => .promise o
  | .throws e => .promise (.thrown e)

/-- Interpreting the outcome of a synchronous `return resolveField(...)`. -/
def syncView : Outcome → WrappedView
  | .value v => .syncValue v
  | .thrown e => .syncThrow e

/-- Everything observable about one invocation of the wrapped resolver. -/
structure WrapCallResult where
  view : WrappedView
  invocations : Nat
  hookCalls : List Outcome
  derived : Option Outcome

/-- The `resolve` closure produced by source `wrapResolver`, on one
invocation.  `original` is `field.resolve ?? defaultFieldResolver`; `setup`
describes what the `onResolverCalled` hook did.  The four branches mirror the
source: no after-hook — call the (possibly replaced) resolver directly and
return its result; a thenable `after` — return `after.then(hook => ...)`,
whose continuation either calls the resolver directly (falsy hook) or runs
`resolveField`; otherwise — `return resolveField(..., after)`. -/
def wrapResolver (original : InvokeResult) (setup : HookSetup) : WrapCallResult :=
  let resolve := setup.replace.getD original
  match setup.after with
  | .noHook =>
    let (r, c) := invoke resolve
    { view := directView r, invocations := c, hookCalls := [], derived := none }
  | .asyncNone =>
    let (r, c) := invoke resolve
    { view := promiseView r, invocations := c, hookCalls := [], derived := none }
  | .asyncHook h =>
    let (fr, c) := resolveField resolve h
    { view := .promise fr.returned, invocations := c,
      hookCalls := fr.hookCalls, derived := fr.derived }
  | .sync h =>
    let (fr, c) := resolveField resolve h
    { view := syncView fr.returned, invocations := c,
      hookCalls := fr.hookCalls, derived := fr.derived }

/-- An after-hook that never substitutes. -/
def idHook : AfterHook := fun _ => none

/-- C1: FAILS on the code.  The spec requires a wrapped resolver that
synchronously returns `42` to return `42` when an after-hook is obtained; the
code's `resolveField` never returns its local `result` (and never even invokes
the hook for a non-thenable value), so the wrapped resolver returns
`undefined` and the after-hook receives nothing. -/
theorem C1_sync_value_dropped :
    (wrapResolver (.ret (.number 42))
        { replace := none, after := .sync idHook }).view =
      .syncValue .undefined ∧
    (wrapResolver (.ret (.number 42))
        { replace := none, after := .sync idHook }).hookCalls = [] :=
  ⟨rfl, rfl⟩

/-- C2: FAILS on the code.  For a resolver returning a deferred value that
rejects with `"boom"`, the spec requires the wrapped resolver to hand its
caller a deferred value rejecting with `"boom"`.  The code returns
`undefined` synchronously — the rejection lives only on the derived promise
built by `result.then(...)`, which `resolveField` drops instead of returning,
so no downstream consumer can observe it.  (The after-hook does receive the
error outcome.) -/
theorem C2_rejection_not_propagated :
    (wrapResolver (.retThenable (.thrown (.str "boom")))
        { replace := none, after := .sync idHook }).view =
      .syncValue .undefined ∧
    (wrapResolver (.retThenable (.thrown (.str "boom")))
        { replace := none, after := .sync idHook }).derived =
      some (.thrown (.str "boom")) ∧
    (wrapResolver (.retThenable (.thrown (.str "boom")))
        { replace := none, after := .sync idHook }).hookCalls =
      [.thrown (.str "boom")] :=
  ⟨rfl, rfl, rfl⟩

/-- C3: for every resolver behaviour and every behaviour of the
`onResolverCalled` hook (no after-hook, synchronous after-hook, deferred
after-hook, with or without resolver replacement) over every resolver outcome
(synchronous return, synchronous throw, deferred resolution or rejection),
the wrapped resolver invokes the underlying resolver function exactly once. -/
theorem C3_resolver_invoked_exactly_once
    (original : InvokeResult) (setup : HookSetup) :
    (wrapResolver original setup).invocations = 1 := by
  rcases setup with ⟨replace, after⟩
  cases after <;>
    rcases h : replace.getD original with v | o | e <;>
      simp [wrapResolver, resolveField, invoke, h] <;>
        cases o <;> simp

/-! ## Option merging, hook registration and the per-request run model -/

/-- The caller's raw `TimingPluginOptions` argument.  `none` models a key that
is absent; `some none` a key present with value `undefined` (which JavaScript
object spread copies over the default, disabling the category); `some (some
())` a supplied callback.  The sinks are presence-only: measurement delivery
is counted by the run model. -/
structure RawOptions where
  skipIntrospection : Option Bool := none
  onContextBuildingMeasurement : Option (Option Unit) := none
  onExecutionMeasurement : Option (Option Unit) := none
  onSubscriptionMeasurement : Option (Option Unit) := none
  onParsingMeasurement : Option (Option Unit) := none
  onValidationMeasurement : Option (Option Unit) := none
  onResolverMeasurement : Option (Option Unit) := none

/-- The merged options `{...DEFAULT_OPTIONS, ...(rawOptions || {})}`. -/
structure TimingPluginOptions where
  skipIntrospection : Bool
  onContextBuildingMeasurement : Option Unit
  onExecutionMeasurement : Option Unit
  onSubscriptionMeasurement : Option Unit
  onParsingMeasurement : Option Unit
  onValidationMeasurement : Option Unit
  onResolverMeasurement : Option Unit
  deriving Repr, DecidableEq

/-- Source `DEFAULT_OPTIONS`: a console-logging sink for every category.  It
carries no `skipIntrospection` key, so after the merge an absent caller value
reads as `undefined`, i.e. falsy. -/
def DEFAULT_OPTIONS : TimingPluginOptions where
  skipIntrospection := false
  onContextBuildingMeasurement := some ()
  onExecutionMeasurement := some ()
  onSubscriptionMeasurement := some ()
  onParsingMeasurement := some ()
  onValidationMeasurement := some ()
  onResolverMeasurement := some ()

/-- JavaScript object spread: any key present in the caller's object — even
with value `undefined` — overrides the default. -/
def mergeOptions (raw : RawOptions) : TimingPluginOptions where
  skipIntrospection := raw.skipIntrospection.getD DEFAULT_OPTIONS.skipIntrospection
  onContextBuildingMeasurement :=
    raw.onContextBuildingMeasurement.getD DEFAULT_OPTIONS.onContextBuildingMeasurement
  onExecutionMeasurement :=
    raw.onExecutionMeasurement.getD DEFAULT_OPTIONS.onExecutionMeasurement
  onSubscriptionMeasurement :=
    raw.onSubscriptionMeasurement.getD DEFAULT_OPTIONS.onSubscriptionMeasurement
  onParsingMeasurement :=
    raw.onParsingMeasurement.getD DEFAULT_OPTIONS.onParsingMeasurement
  onValidationMeasurement :=
    raw.onValidationMeasurement.getD DEFAULT_OPTIONS.onValidationMeasurement
  onResolverMeasurement :=
    raw.onResolverMeasurement.getD DEFAULT_OPTIONS.onResolverMeasurement

/-- Which hook slots of the returned plugin object are populated.  A `false`
field means the hook is not registered at all, mirroring the source's
`if (options.onXMeasurement) { result.onX = ... }` structure. -/
structure Plugin where
  onContextBuilding : Bool
  onParse : Bool
  onValidate : Bool
  onExecute : Bool
  onSubscribe : Bool
  onSchemaChange : Bool
  onResolverCalled : Bool
  deriving Repr, DecidableEq

/-- Source `useTiming`: merge the options, then register hooks category by
category.  `onResolverCalled` is assigned in the execution branch when both
the execution and resolver sinks are present, and (re)assigned — with an
identical body — in the subscription branch when both the subscription and
resolver sinks are present; `onSchemaChange` (the schema-rewriting resolver
wrapper) is registered only in that subscription branch. -/
def useTiming (raw : RawOptions) : Plugin :=
  let options := mergeOptions raw
  { onContextBuilding := options.onContextBuildingMeasurement.isSome
    onParse := options.onParsingMeasurement.isSome
    onValidate := options.onValidationMeasurement.isSome
    onExecute := options.onExecutionMeasurement.isSome
    onSubscribe := options.onSubscriptionMeasurement.isSome
    onSchemaChange :=
      options.onSubscriptionMeasurement.isSome && options.onResolverMeasurement.isSome
    onResolverCalled :=
      (options.onExecutionMeasurement.isSome && options.onResolverMeasurement.isSome) ||
        (options.onSubscriptionMeasurement.isSome && options.onResolverMeasurement.isSome) }

/-- Whether a request goes through the execute phase or the subscribe phase. -/
inductive Mode where
  | execution
  | subscription
  deriving Repr, DecidableEq

/-- True on the execute path. -/
def Mode.isExecution : Mode → Bool
  | .execution => true
  | .subscription => false

/-- One request, as the run model sees it: its phase path, whether
`isIntrospectionOperationString` holds of its raw operation text, the
behaviour of each resolver invocation performed while it runs, and whether
the pipeline fires its native per-resolver hook for those invocations. -/
structure Request where
  mode : Mode
  sourceIsIntrospection : Bool
  resolvers : List InvokeResult
  nativeResolverHook : Bool

/-- How many measurements the schema-rewriting wrapper reports for one
resolver invocation: the wrapper's `onResolverCalled` callback returns the
measuring closure as the after-hook (which never substitutes), and
`resolveField` invokes that hook once on a throw or on a thenable settlement
and not at all on a plain synchronous value. -/
def resolverWrapperEmits (r : InvokeResult) : Nat :=
  ((resolveField r idHook).1.hookCalls).length

/-- Per-category counters for one request: measurements delivered to each
sink, clock reads (`process.hrtime` calls) performed on behalf of each
category, and the final state of the introspection marker. -/
structure RunStats where
  parsingMeasurements : Nat
  validationMeasurements : Nat
  contextMeasurements : Nat
  executionMeasurements : Nat
  subscriptionMeasurements : Nat
  resolverMeasurements : Nat
  parsingClockReads : Nat
  validationClockReads : Nat
  contextClockReads : Nat
  executionClockReads : Nat
  subscriptionClockReads : Nat
  resolverClockReads : Nat
  introspectionMarker : Bool
  deriving Repr, DecidableEq

/-- One request driven through the plugin returned by `useTiming raw`, in the
pipeline's phase order (parse, validate, context building, then execute or
subscribe with its resolver invocations).  Each registered hook behaves as its
source body does: the parse hook sets the introspection marker — and skips its
own timer — when `skipIntrospection` is on and the operation text is an
introspection query; the validate, context-building, execute and subscribe
hooks return early when the marker is set; a measured span costs two clock
reads (one at the start, one inside `deltaFrom`).  The two resolver
instruments check no marker: the native `onResolverCalled` hook reads the
clock on every invocation and reports when the pipeline fires its
after-callback, and the schema-rewriting wrapper reads the clock on every
invocation of a wrapped resolver and reports whenever `resolveField` invokes
its after-hook. -/
def runRequest (raw : RawOptions) (req : Request) : RunStats :=
  let options := mergeOptions raw
  let plugin := useTiming raw
  let marker := plugin.onParse && (options.skipIntrospection && req.sourceIsIntrospection)
  let parseMeasured := plugin.onParse && !(options.skipIntrospection && req.sourceIsIntrospection)
  let validateMeasured := plugin.onValidate && !marker
  let contextMeasured := plugin.onContextBuilding && !marker
  let executeMeasured := plugin.onExecute && req.mode.isExecution && !marker
  let subscribeMeasured := plugin.onSubscribe && !req.mode.isExecution && !marker
  let n := req.resolvers.length
  let nativeFires := plugin.onResolverCalled && req.nativeResolverHook
  let wrapperEmitTotal := (req.resolvers.map resolverWrapperEmits).sum
  { parsingMeasurements := if parseMeasured then 1 else 0
    validationMeasurements := if validateMeasured then 1 else 0
    contextMeasurements := if contextMeasured then 1 else 0
    executionMeasurements := if executeMeasured then 1 else 0
    subscriptionMeasurements := if subscribeMeasured then 1 else 0
    resolverMeasurements :=
      (if nativeFires then n else 0) +
        (if plugin.onSchemaChange then wrapperEmitTotal else 0)
    parsingClockReads := if parseMeasured then 2 else 0
    validationClockReads := if validateMeasured then 2 else 0
    contextClockReads := if contextMeasured then 2 else 0
    executionClockReads := if executeMeasured then 2 else 0
    subscriptionClockReads := if subscribeMeasured then 2 else 0
    resolverClockReads :=
      (if nativeFires then 2 * n else 0) +
        (if plugin.onSchemaChange then n + wrapperEmitTotal else 0)
    introspectionMarker := marker }

/-- The six measurement categories of the sink configuration. -/
inductive Category where
  | contextBuilding
  | parsing
  | validation
  | execution
  | subscription
  | resolver
  deriving Repr, DecidableEq

/-- The raw option entry belonging to a category. -/
def RawOptions.sink (raw : RawOptions) : Category → Option (Option Unit)
  | .contextBuilding => raw.onContextBuildingMeasurement
  | .parsing => raw.onParsingMeasurement
  | .validation => raw.onValidationMeasurement
  | .execution => raw.onExecutionMeasurement
  | .subscription => raw.onSubscriptionMeasurement
  | .resolver => raw.onResolverMeasurement

/-- True when none of the plugin hook slots serving a category is populated
(for the resolver category these are both the native `onResolverCalled` hook
and the schema-rewriting `onSchemaChange` hook). -/
def hooksAbsentFor (p : Plugin) : Category → Bool
  | .contextBuilding => !p.onContextBuilding
  | .parsing => !p.onParse
  | .validation => !p.onValidate
  | .execution => !p.onExecute
  | .subscription => !p.onSubscribe
  | .resolver => !p.onResolverCalled && !p.onSchemaChange

/-- Measurements delivered to a category's sink during one request. -/
def categoryMeasurements (st : RunStats) : Category → Nat
  | .contextBuilding => st.contextMeasurements
  | .parsing => st.parsingMeasurements
  | .validation => st.validationMeasurements
  | .execution => st.executionMeasurements
  | .subscription => st.subscriptionMeasurements
  | .resolver => st.resolverMeasurements

/-- Clock reads performed on behalf of a category during one request. -/
def categoryClockReads (st : RunStats) : Category → Nat
  | .contextBuilding => st.contextClockReads
  | .parsing => st.parsingClockReads
  | .validation => st.validationClockReads
  | .execution => st.executionClockReads
  | .subscription => st.subscriptionClockReads
  | .resolver => st.resolverClockReads

/-- A hook that substitutes the string `"replacement"` for whatever outcome it
is given. -/
def substHook : AfterHook := fun _ => some (.str "replacement")

/-- C4: FAILS on the code.  On a synchronous throw the after-hook is invoked
with the thrown error and handed `setResult`, but `resolveField`'s catch block
then executes `throw error` — the original error — so a substitution installed
via `setResult` is written into the local `result` and discarded.  Here the
hook substitutes `"replacement"`, yet the caller still sees the original
`"kaboom"` thrown. -/
theorem C4_substituted_throw_ignored :
    (wrapResolver (.throws (.str "kaboom"))
        { replace := none, after := .sync substHook }).view =
      .syncThrow (.str "kaboom") ∧
    (wrapResolver (.throws (.str "kaboom"))
        { replace := none, after := .sync substHook }).hookCalls =
      [.thrown (.str "kaboom")] :=
  ⟨rfl, rfl⟩

/-! ## Concrete requests and configurations used as inputs -/

/-- A request whose operation text is classified as an introspection query,
with one plain-value resolver invocation, on a pipeline that fires the native
per-resolver hook. -/
def introReq : Request where
  mode := .execution
  sourceIsIntrospection := true
  resolvers := [.ret (.number 1)]
  nativeResolverHook := true

/-- Caller options enabling `skipIntrospection`, all sinks left at their
defaults. -/
def introRaw : RawOptions := { skipIntrospection := some true }

/-- A plain (non-introspection) request with a single resolver invocation that
returns a thenable, on a pipeline that fires the native per-resolver hook. -/
def dupReq : Request where
  mode := .execution
  sourceIsIntrospection := false
  resolvers := [.retThenable (.value (.number 1))]
  nativeResolverHook := true

/-- True of the invocations on which the schema-rewriting wrapper's after-hook
fires: a synchronous throw or a thenable result (never a plain synchronous
value, where `resolveField`'s `isThenable` guard fails and the hook is
skipped). -/
def wrapperMeasures : InvokeResult → Bool
  | .ret _ => false
  | .retThenable _ => true
  | .throws _ => true

lemma resolverWrapperEmits_eq (r : InvokeResult) :
    resolverWrapperEmits r = if wrapperMeasures r then 1 else 0 := by
  rcases r with v | o | e
  · rfl
  · cases o <;> rfl
  · rfl

lemma sum_map_resolverWrapperEmits (l : List InvokeResult) :
    (l.map resolverWrapperEmits).sum = l.countP wrapperMeasures := by
  induction l with
  | nil => rfl
  | cons r t ih =>
    simp [List.countP_cons, resolverWrapperEmits_eq, ih, Nat.add_comm]

/-! ## C5: introspection suppression -/

/-- Counterexample to C5 as stated.  With `skipIntrospection` enabled, default
sinks, and an introspection-classified operation running one resolver, the
marker is set and parsing, validation, context building and execution all
report zero measurements — but the resolver sink still receives a
measurement: the native `onResolverCalled` hook performs no marker check, so
"zero measurements ... for every resolver invocation" fails. -/
theorem C5_counterexample :
    (runRequest introRaw introReq).introspectionMarker = true ∧
    (runRequest introRaw introReq).parsingMeasurements = 0 ∧
    (runRequest introRaw introReq).validationMeasurements = 0 ∧
    (runRequest introRaw introReq).contextMeasurements = 0 ∧
    (runRequest introRaw introReq).executionMeasurements = 0 ∧
    (runRequest introRaw introReq).resolverMeasurements = 1 := by
  refine ⟨rfl, rfl, rfl, rfl, rfl, rfl⟩

/-- C5 amended: when skip-introspection is enabled, the parsing sink is
enabled (so the parse hook is registered), and the operation text is
classified as introspection, the marker is set during parse and zero
measurements are emitted for parsing (no timer started), validation, context
building, execution and subscription — but resolver invocations are measured
exactly as they would be for a non-introspection request, because neither the
native resolver hook nor the schema-rewriting wrapper checks the marker. -/
theorem C5_introspection_suppression_amended (raw : RawOptions) (req : Request)
    (hskip : (mergeOptions raw).skipIntrospection = true)
    (hparse : (mergeOptions raw).onParsingMeasurement.isSome = true)
    (hintro : req.sourceIsIntrospection = true) :
    (runRequest raw req).introspectionMarker = true ∧
    (runRequest raw req).parsingMeasurements = 0 ∧
    (runRequest raw req).validationMeasurements = 0 ∧
    (runRequest raw req).contextMeasurements = 0 ∧
    (runRequest raw req).executionMeasurements = 0 ∧
    (runRequest raw req).subscriptionMeasurements = 0 ∧
    (runRequest raw req).resolverMeasurements =
      (runRequest raw { req with sourceIsIntrospection := false }).resolverMeasurements := by
  simp [runRequest, useTiming, hskip, hparse, hintro]

/-- Witness for the amended C5 at a concrete configuration and request. -/
theorem C5_witness :
    (mergeOptions introRaw).skipIntrospection = true ∧
    (mergeOptions introRaw).onParsingMeasurement.isSome = true ∧
    introReq.sourceIsIntrospection = true ∧
    ((runRequest introRaw introReq).introspectionMarker = true ∧
      (runRequest introRaw introReq).parsingMeasurements = 0 ∧
      (runRequest introRaw introReq).validationMeasurements = 0 ∧
      (runRequest introRaw introReq).contextMeasurements = 0 ∧
      (runRequest introRaw introReq).executionMeasurements = 0 ∧
      (runRequest introRaw introReq).subscriptionMeasurements = 0 ∧
      (runRequest introRaw introReq).resolverMeasurements =
        (runRequest introRaw
            { introReq with sourceIsIntrospection := false }).resolverMeasurements) :=
  ⟨rfl, rfl, rfl, C5_introspection_suppression_amended introRaw introReq rfl rfl rfl⟩

/-! ## C6: one measurement per span -/

/-- Counterexample to C6 as stated.  Under the all-default configuration (the
branch installing both the schema-rewriting wrapper and the native
per-resolver hook), one resolver invocation returning a thenable on a
non-introspection request yields two resolver measurements, not exactly
one. -/
theorem C6_counterexample :
    dupReq.resolvers.length = 1 ∧
    (runRequest {} dupReq).introspectionMarker = false ∧
    (runRequest {} dupReq).resolverMeasurements = 2 := by
  refine ⟨rfl, rfl, rfl⟩

/-- C6 amended: with the introspection marker unset, each enabled phase
category reports exactly one measurement per phase invocation (parsing,
validation, context building; execution and subscription according to the
request's mode).  For resolvers, in the branch where both the subscription
and resolver sinks are configured, both instruments are installed and on a
pipeline firing the native hook each invocation yields one native measurement
plus one wrapper measurement exactly when the resolver throws or returns a
thenable — so a plain synchronous resolver is measured once, while the others
are measured twice. -/
theorem C6_measurement_counts_amended (raw : RawOptions) (req : Request)
    (hsub : (mergeOptions raw).onSubscriptionMeasurement.isSome = true)
    (hres : (mergeOptions raw).onResolverMeasurement.isSome = true)
    (hnative : req.nativeResolverHook = true)
    (hmarker : (runRequest raw req).introspectionMarker = false) :
    (runRequest raw req).resolverMeasurements =
      req.resolvers.length + req.resolvers.countP wrapperMeasures ∧
    (runRequest raw req).parsingMeasurements =
      (if (mergeOptions raw).onParsingMeasurement.isSome then 1 else 0) ∧
    (runRequest raw req).validationMeasurements =
      (if (mergeOptions raw).onValidationMeasurement.isSome then 1 else 0) ∧
    (runRequest raw req).contextMeasurements =
      (if (mergeOptions raw).onContextBuildingMeasurement.isSome then 1 else 0) ∧
    (runRequest raw req).executionMeasurements =
      (if (mergeOptions raw).onExecutionMeasurement.isSome && req.mode.isExecution
        then 1 else 0) ∧
    (runRequest raw req).subscriptionMeasurements =
      (if req.mode.isExecution then 0 else 1) := by
  simp only [runRequest, useTiming] at hmarker ⊢
  rcases Bool.eq_false_or_eq_true req.mode.isExecution with hm | hm <;>
    rcases Bool.eq_false_or_eq_true
        (mergeOptions raw).onParsingMeasurement.isSome with hp | hp <;>
      rcases Bool.eq_false_or_eq_true
          (mergeOptions raw).skipIntrospection with hs | hs <;>
        rcases Bool.eq_false_or_eq_true req.sourceIsIntrospection with hi | hi <;>
          simp_all [sum_map_resolverWrapperEmits]

/-- Witness for the amended C6: the all-default configuration on `dupReq`
(one thenable-returning invocation) gives `1 + 1 = 2` resolver measurements
and one measurement for each phase. -/
theorem C6_witness :
    (mergeOptions {}).onSubscriptionMeasurement.isSome = true ∧
    (mergeOptions {}).onResolverMeasurement.isSome = true ∧
    dupReq.nativeResolverHook = true ∧
    (runRequest {} dupReq).introspectionMarker = false ∧
    ((runRequest {} dupReq).resolverMeasurements =
        dupReq.resolvers.length + dupReq.resolvers.countP wrapperMeasures ∧
      (runRequest {} dupReq).parsingMeasurements =
        (if (mergeOptions {}).onParsingMeasurement.isSome then 1 else 0) ∧
      (runRequest {} dupReq).validationMeasurements =
        (if (mergeOptions {}).onValidationMeasurement.isSome then 1 else 0) ∧
      (runRequest {} dupReq).contextMeasurements =
        (if (mergeOptions {}).onContextBuildingMeasurement.isSome then 1 else 0) ∧
      (runRequest {} dupReq).executionMeasurements =
        (if (mergeOptions {}).onExecutionMeasurement.isSome && dupReq.mode.isExecution
          then 1 else 0) ∧
      (runRequest {} dupReq).subscriptionMeasurements =
        (if dupReq.mode.isExecution then 0 else 1)) :=
  ⟨rfl, rfl, rfl, rfl, C6_measurement_counts_amended {} dupReq rfl rfl rfl rfl⟩

/-! ## C9: explicitly disabled categories -/

/-- C9: a category whose sink the caller sets explicitly to `undefined` is
disabled by the merge, none of the plugin hook slots serving it is populated
(for the resolver category: neither the native hook nor the schema-rewriting
wrapper), and on any request it gets zero measurements and zero clock
reads. -/
theorem C9_disabled_category_zero (raw : RawOptions) (c : Category) (req : Request)
    (h : raw.sink c = some none) :
    hooksAbsentFor (useTiming raw) c = true ∧
    categoryMeasurements (runRequest raw req) c = 0 ∧
    categoryClockReads (runRequest raw req) c = 0 := by
  cases c <;>
    simp_all [RawOptions.sink, hooksAbsentFor, categoryMeasurements,
      categoryClockReads, useTiming, mergeOptions, runRequest]

/-- Witness for C9: the resolver sink explicitly set to `undefined` leaves
both resolver hook slots unregistered and produces no resolver clock reads or
measurements on a request with resolver invocations of every kind. -/
theorem C9_witness :
    RawOptions.sink { onResolverMeasurement := some none } .resolver = some none ∧
    (hooksAbsentFor
        (useTiming { onResolverMeasurement := some none }) .resolver = true ∧
      categoryMeasurements
        (runRequest { onResolverMeasurement := some none }
          { mode := .execution, sourceIsIntrospection := false,
            resolvers := [.ret (.number 1), .retThenable (.value .undefined),
              .throws (.str "e")],
            nativeResolverHook := true }) .resolver = 0 ∧
      categoryClockReads
        (runRequest { onResolverMeasurement := some none }
          { mode := .execution, sourceIsIntrospection := false,
            resolvers := [.ret (.number 1), .retThenable (.value .undefined),
              .throws (.str "e")],
            nativeResolverHook := true }) .resolver = 0) :=
  ⟨rfl, C9_disabled_category_zero { onResolverMeasurement := some none } .resolver
    { mode := .execution, sourceIsIntrospection := false,
      resolvers := [.ret (.number 1), .retThenable (.value .undefined),
        .throws (.str "e")],
      nativeResolverHook := true } rfl⟩

/-! ## C10: the marker is set only by the parse hook -/

/-- C10: with the parsing sink explicitly disabled the parse hook — the only
place that can set the introspection marker — is never registered, so even
with `skipIntrospection` enabled the marker stays unset for every request,
and an introspection-classified operation runs with exactly the statistics of
a non-introspection one in every other enabled category. -/
theorem C10_no_parse_no_marker (raw : RawOptions) (req : Request)
    (h : raw.onParsingMeasurement = some none) :
    (runRequest raw req).introspectionMarker = false ∧
    runRequest raw req = runRequest raw { req with sourceIsIntrospection := false } := by
  constructor
  · simp [runRequest, useTiming, mergeOptions, h]
  · simp [runRequest, useTiming, mergeOptions, h]

/-- Witness for C10: parsing disabled, skip-introspection on, an
introspection-classified request — the marker stays false and the run is
indistinguishable from the non-introspection run. -/
theorem C10_witness :
    ({ skipIntrospection := some true, onParsingMeasurement := some none
        : RawOptions }).onParsingMeasurement = some none ∧
    ((runRequest
        { skipIntrospection := some true, onParsingMeasurement := some none }
        introReq).introspectionMarker = false ∧
      runRequest
        { skipIntrospection := some true, onParsingMeasurement := some none }
        introReq =
      runRequest
        { skipIntrospection := some true, onParsingMeasurement := some none }
        { introReq with sourceIsIntrospection := false }) :=
  ⟨rfl, C10_no_parse_no_marker
    { skipIntrospection := some true, onParsingMeasurement := some none }
    introReq rfl⟩

end Envelop
